import Mathlib

/-!
Shallow embedding of the PajaritoSaltadorWeb core game logic
(`src/game.js`, with the virtual viewport of `src/renderer.js`).

All JavaScript numbers are modelled as exact rationals (`ℚ`); the game's
per-frame mutation of the single `Game` object is modelled as explicit
state passing.  `Math.random()` is modelled by passing the drawn sample
`r ∈ [0,1)` as an explicit argument to the operations that consume it.
The functions `physics.js` and `utils.js` export are imported by
`game.js` but their source files are not part of the repository snapshot;
they are modelled from the specification (see the doc comments on
`applyGravity`, `applyJump`, `clampVelocity` and `checkCollision`).
-/

set_option maxRecDepth 100000

namespace Pajarito

/-- One pipe segment, as pushed by `spawnPipe` (game.js:262-277). -/
structure Pipe where
  x : ℚ
  y : ℚ
  width : ℚ
  height : ℚ
  passed : Bool
deriving DecidableEq, Repr

/-- The bird record of the `Game` constructor (game.js:20-30). -/
structure Bird where
  x : ℚ
  y : ℚ
  width : ℚ
  height : ℚ
  velocity : ℚ
  rotation : ℚ
  wingPhase : ℚ
  isDying : Bool
  deathAnimationTime : ℚ
deriving DecidableEq, Repr

/-- The invulnerability ability record (game.js:53-62).  The bound
trigger key is opaque to the core and omitted. -/
structure Ability where
  active : Bool
  duration : ℚ
  cooldown : ℚ
  cooldownTimer : ℚ
  activeTimer : ℚ
deriving DecidableEq, Repr

/-- Top-level game state enum (game.js:16). -/
inductive GState where
  | start
  | playing
  | gameover
deriving DecidableEq, Repr

/-- An axis-aligned rectangle, the argument shape of `checkCollision`. -/
structure Rect where
  x : ℚ
  y : ℚ
  width : ℚ
  height : ℚ
deriving DecidableEq, Repr

/-- The mutable state held by the `Game` instance (game.js:10-65).
`canvasWidth`/`canvasHeight` are the `this.canvas.width`/`.height`
pixel dimensions that `setupCanvas` (renderer.js:56-61) assigns from the
window size scaled by the device pixel ratio; game.js reads them for its
spawn and bounds arithmetic. -/
structure Game where
  state : GState
  score : Nat
  highScore : Nat
  bird : Bird
  pipes : List Pipe
  pipeWidth : ℚ
  pipeGap : ℚ
  pipeSpeed : ℚ
  gravity : ℚ
  jumpForce : ℚ
  maxVelocity : ℚ
  baseGravity : ℚ
  baseJumpForce : ℚ
  basePipeSpeed : ℚ
  basePipeGap : ℚ
  difficultyLevel : Nat
  pipeSpawnTimer : ℚ
  pipeSpawnInterval : ℚ
  ability : Ability
  canvasWidth : ℚ
  canvasHeight : ℚ
deriving DecidableEq, Repr

/-- The virtual viewport of the renderer (renderer.js:12-15): the fixed
logical size that `Renderer.width`/`Renderer.height` expose for the game
logic. -/
structure Viewport where
  width : ℚ
  height : ℚ
deriving DecidableEq, Repr

/-- `this.viewport = { width: 400, height: 600 }` (renderer.js:12-15). -/
def rendererViewport : Viewport := { width := 400, height := 600 }

/-- `Math.PI` as the 16-significant-digit decimal value of the IEEE-754
double (rotation smoothing only; no claim depends on its exact value). -/
def mathPi : ℚ := 3.141592653589793

/-- Modelled from the spec: `physics.js` is imported by game.js but is
not under src/; spec §4.1: `applyGravity(body, gravityAccel, dt)`:
velocity += gravityAccel * dt.  Pure, no clamping; position untouched. -/
def applyGravity (b : Bird) (gravityAccel deltaTime : ℚ) : Bird :=
  { b with velocity := b.velocity + gravityAccel * deltaTime }

/-- Modelled from the spec: `physics.js` is not under src/; spec §4.1:
`applyJump(body, jumpForce)`: velocity = −jumpForce (impulse,
overwrites, not additive). -/
def applyJump (b : Bird) (jumpForce : ℚ) : Bird :=
  { b with velocity := -jumpForce }

/-- Modelled from the spec: `physics.js` is not under src/; spec §4.1:
`clampVelocity(body, maxVelocity)`: velocity = min(velocity,
maxVelocity) — clamps only the fall-speed ceiling. -/
def clampVelocity (b : Bird) (maxVelocity : ℚ) : Bird :=
  { b with velocity := min b.velocity maxVelocity }

/-- Modelled from the spec: `utils.js` (exporting `checkCollision`) is
not under src/; spec §4.2: standard AABB overlap, true iff
`A.x < B.x+B.width && A.x+A.width > B.x && A.y < B.y+B.height &&
A.y+A.height > B.y`. -/
def checkCollision (a b : Rect) : Bool :=
  decide (a.x < b.x + b.width ∧ a.x + a.width > b.x ∧
    a.y < b.y + b.height ∧ a.y + a.height > b.y)

/-- The delta-time computation of `startGameLoop` (game.js:138):
`Math.min((currentTime - this.lastTime) / 1000, 0.1)`. -/
def computeDeltaTime (lastTime currentTime : ℚ) : ℚ :=
  min ((currentTime - lastTime) / 1000) 0.1

/-- The `Game` constructor (game.js:10-65), parameterized by the canvas
pixel dimensions the renderer assigned and the persisted high score. -/
def initGame (canvasW canvasH : ℚ) (savedHighScore : Nat) : Game where
  state := GState.start
  score := 0
  highScore := savedHighScore
  bird := { x := 100, y := 250, width := 40, height := 30, velocity := 0,
            rotation := 0, wingPhase := 0, isDying := false,
            deathAnimationTime := 0 }
  pipes := []
  pipeWidth := 60
  pipeGap := 150
  pipeSpeed := 150
  gravity := 1000
  jumpForce := 250
  maxVelocity := 400
  baseGravity := 1000
  baseJumpForce := 250
  basePipeSpeed := 150
  basePipeGap := 150
  difficultyLevel := 0
  pipeSpawnTimer := 0
  pipeSpawnInterval := 1.5
  ability := { active := false, duration := 3, cooldown := 15,
               cooldownTimer := 0, activeTimer := 0 }
  canvasWidth := canvasW
  canvasHeight := canvasH

/-- `startDeathAnimation` (game.js:320-327): idempotent; forces the
velocity to at least 200. -/
def startDeathAnimation (g : Game) : Game :=
  if g.bird.isDying then g
  else
    { g with bird := { g.bird with
                       isDying := true,
                       deathAnimationTime := 0,
                       velocity := max g.bird.velocity 200 } }

/-- `gameOver` (game.js:752-767): idempotent; records the high score. -/
def gameOver (g : Game) : Game :=
  if g.state = GState.gameover then g
  else
    { g with state := GState.gameover,
             highScore := if g.score > g.highScore then g.score else g.highScore }

/-- The terminal condition of the dying branch (game.js:192), evaluated
on the bird after this frame's accumulation:
`bird.y + bird.height >= canvas.height || bird.deathAnimationTime > 2000`. -/
abbrev deathTerminalCond (b : Bird) (canvasH : ℚ) : Prop :=
  b.y + b.height ≥ canvasH ∨ b.deathAnimationTime > 2000

/-- `updateBird` (game.js:175-232): dying branch first, else jump,
gravity, velocity clamp, rotation smoothing, wing animation, and the
top/floor boundary handling against `this.canvas.height`. -/
def updateBird (g : Game) (deltaTime : ℚ) (shouldJump : Bool) : Game :=
  if g.bird.isDying then
    let b0 := { g.bird with deathAnimationTime := g.bird.deathAnimationTime + deltaTime }
    let b1 := clampVelocity (applyGravity b0 (g.gravity * 1.5) deltaTime)
      (g.maxVelocity * 1.5)
    let b2 := { b1 with rotation := b1.rotation + (mathPi - b1.rotation) * 0.15,
                        wingPhase := 0 }
    if deathTerminalCond b2 g.canvasHeight then
      { g with bird := { b2 with y := min b2.y (g.canvasHeight - b2.height) } }
    else
      { g with bird := b2 }
  else
    let bj := if shouldJump then { (applyJump g.bird g.jumpForce) with wingPhase := 0 }
      else g.bird
    let b1 := clampVelocity (applyGravity bj g.gravity deltaTime) g.maxVelocity
    let targetRot := min (b1.velocity * 0.002) (mathPi / 2)
    let b2 := { b1 with rotation := b1.rotation + (targetRot - b1.rotation) * 0.1 }
    let wingSpeed : ℚ := if b2.velocity < 0 then 15 else 8
    let wp0 := b2.wingPhase + deltaTime * wingSpeed
    let b3 := { b2 with wingPhase := if wp0 > 2 * mathPi then wp0 - 2 * mathPi else wp0 }
    let b4 := if b3.y < 0 then { b3 with y := 0, velocity := 0 } else b3
    if b4.y + b4.height > g.canvasHeight then
      gameOver (startDeathAnimation
        { g with bird := { b4 with y := g.canvasHeight - b4.height } })
    else
      { g with bird := b4 }

/-- `spawnPipe` (game.js:258-278), with the `Math.random()` sample `r`
passed explicitly: `gapY = r * (canvasH - pipeGap - 200) + 100`; pushes
the top segment then the bottom segment, both at `x = canvasW`. -/
def spawnPipe (canvasW canvasH pipeGap pipeWidth r : ℚ) : Pipe × Pipe :=
  let gapY := r * (canvasH - pipeGap - 200) + 100
  ({ x := canvasW, y := 0, width := pipeWidth, height := gapY, passed := false },
   { x := canvasW, y := gapY + pipeGap, width := pipeWidth,
     height := canvasH - (gapY + pipeGap), passed := false })

/-- `updatePipes` (game.js:238-253): advance left by `pipeSpeed*dt`,
prune off-screen pipes, accumulate the spawn timer and spawn a new pair
when it reaches the interval. -/
def updatePipes (g : Game) (deltaTime r : ℚ) : Game :=
  let moved : List Pipe := g.pipes.map fun p => { p with x := p.x - g.pipeSpeed * deltaTime }
  let kept : List Pipe := moved.filter fun p =>
    decide (p.x + p.width > -50 ∧ p.x < g.canvasWidth + 50)
  let g1 : Game := { g with pipes := kept,
                            pipeSpawnTimer := g.pipeSpawnTimer + deltaTime }
  if g1.pipeSpawnTimer ≥ g1.pipeSpawnInterval then
    let pair := spawnPipe g1.canvasWidth g1.canvasHeight g1.pipeGap g1.pipeWidth r
    { g1 with pipes := g1.pipes ++ [pair.1, pair.2], pipeSpawnTimer := 0 }
  else g1

/-- `checkCollisions` (game.js:283-315): skipped entirely while the
invulnerability ability is active or the bird is already dying;
otherwise the first AABB hit starts the death animation and game over. -/
def checkCollisions (g : Game) : Game :=
  if g.ability.active then g
  else if g.bird.isDying then g
  else
    let birdRect : Rect :=
      { x := g.bird.x, y := g.bird.y, width := g.bird.width, height := g.bird.height }
    if g.pipes.any fun p =>
        checkCollision birdRect { x := p.x, y := p.y, width := p.width, height := p.height }
    then gameOver (startDeathAnimation g)
    else g

/-- The ability-timer part of `updateAbilities` (game.js:333-355):
cooldown counts down floored at 0; while active, the active timer counts
down and deactivates on reaching ≤ 0. -/
def tickAbility (a : Ability) (deltaTime : ℚ) : Ability :=
  let a1 :=
    if a.cooldownTimer > 0 then
      let ct := a.cooldownTimer - deltaTime
      { a with cooldownTimer := if ct < 0 then 0 else ct }
    else a
  if a1.active then
    let t' := a1.activeTimer - deltaTime
    if t' ≤ 0 then { a1 with active := false, activeTimer := 0 }
    else { a1 with activeTimer := t' }
  else a1

/-- `updateAbilities` lifted to the game state (game.js:333-355; the
DOM-only `updateAbilityUI` call has no core-state effect). -/
def updateAbilities (g : Game) (deltaTime : ℚ) : Game :=
  { g with ability := tickAbility g.ability deltaTime }

/-- `activateInvulnerability` (game.js:360-375): returns false and
changes nothing while `cooldownTimer > 0`; otherwise activates, starting
the duration and cooldown timers concurrently, and returns true. -/
def activateInvulnerability (a : Ability) : Bool × Ability :=
  if a.cooldownTimer > 0 then (false, a)
  else (true, { a with active := true, activeTimer := a.duration,
                       cooldownTimer := a.cooldown })

/-- `increaseDifficulty` (game.js:658-673): recompute the four live
tunables from `difficultyLevel` (the notification is DOM-only). -/
def increaseDifficulty (g : Game) : Game :=
  { g with pipeSpeed := g.basePipeSpeed + (g.difficultyLevel : ℚ) * 30,
           pipeGap := max 100 (g.basePipeGap - (g.difficultyLevel : ℚ) * 10),
           gravity := g.baseGravity + (g.difficultyLevel : ℚ) * 50,
           pipeSpawnInterval := max 0.8 (1.5 - (g.difficultyLevel : ℚ) * 0.1) }

/-- The body of the `updateScore` forEach for the pipe at index `i`
(game.js:634-653): mark a crossed pipe passed; when exactly two passed
pipes lie within 10 units of it, increment the score and, on reaching a
new `floor(score/25)` level, raise the difficulty. -/
def scoreAtIndex (g : Game) (i : Nat) : Game :=
  match g.pipes[i]? with
  | none => g
  | some pipe =>
    if pipe.passed = false ∧ pipe.x + pipe.width < g.bird.x then
      let pipes' := g.pipes.set i { pipe with passed := true }
      if (pipes'.filter fun p => p.passed && decide (|p.x - pipe.x| < 10)).length = 2 then
        let g1 := { g with pipes := pipes', score := g.score + 1 }
        let newLevel := g1.score / 25
        if newLevel > g1.difficultyLevel then
          increaseDifficulty { g1 with difficultyLevel := newLevel }
        else g1
      else { g with pipes := pipes' }
    else g

/-- The `forEach` of `updateScore` iterating the pipe indices in order;
`k` counts the remaining indices (the list length is unchanged by
`scoreAtIndex`, matching the JavaScript iteration). -/
def updateScoreAux : Nat → Nat → Game → Game
  | 0, _, g => g
  | k + 1, i, g => updateScoreAux k (i + 1) (scoreAtIndex g i)

/-- `updateScore` (game.js:634-653). -/
def updateScore (g : Game) : Game :=
  updateScoreAux g.pipes.length 0 g

/-- `update` (game.js:154-168): only while playing, in order: ability
tick, bird update (with the consumed jump flag), pipe update, collision
check, score update. -/
def update (g : Game) (deltaTime : ℚ) (shouldJump : Bool) (r : ℚ) : Game :=
  if g.state = GState.playing then
    updateScore (checkCollisions
      (updatePipes (updateBird (updateAbilities g deltaTime) deltaTime shouldJump)
        deltaTime r))
  else g

/-- `startGame` (game.js:703-747): full reset into the playing state. -/
def startGame (g : Game) : Game :=
  { g with
    state := GState.playing,
    score := 0,
    pipes := [],
    pipeSpawnTimer := 0,
    difficultyLevel := 0,
    gravity := g.baseGravity,
    jumpForce := g.baseJumpForce,
    pipeSpeed := g.basePipeSpeed,
    pipeGap := g.basePipeGap,
    pipeSpawnInterval := 1.5,
    ability := { g.ability with active := false, activeTimer := 0, cooldownTimer := 0 },
    bird := { g.bird with
              x := 100, y := 250, velocity := 0, rotation := 0,
              wingPhase := 0, isDying := false, deathAnimationTime := 0 } }

/-- The difficulty invariant of spec §3/§4.4: the level is
`floor(score/25)` and the four live tunables are its deterministic
formulas. -/
def difficultyInv (g : Game) : Prop :=
  g.difficultyLevel = g.score / 25 ∧
  g.pipeSpeed = g.basePipeSpeed + (g.difficultyLevel : ℚ) * 30 ∧
  g.pipeGap = max 100 (g.basePipeGap - (g.difficultyLevel : ℚ) * 10) ∧
  g.gravity = g.baseGravity + (g.difficultyLevel : ℚ) * 50 ∧
  g.pipeSpawnInterval = max 0.8 (1.5 - (g.difficultyLevel : ℚ) * 0.1)

/-- A fresh round on a 400×600 canvas (device pixel ratio 1, window
exactly the viewport size) with no stored high score. -/
def gStart : Game := startGame (initGame 400 600 0)

/-- `n` consecutive frames of 0.1 s with no jump input and random
sample 0. -/
def stepN : Nat → Game → Game
  | 0, g => g
  | n + 1, g => stepN n (update g (1/10) false 0)

/-- A reachable state: from a fresh round, 3 frames pass, the player
activates the shield, and 29 more frames pass — the shield is still
active with 0.1 s left while the first pipe pair has scrolled to the
bird; the window of frames 4-32 let every collision check be skipped. -/
def g7pre : Game :=
  let g3 := stepN 3 gStart
  let gA := { g3 with ability := (activateInvulnerability g3.ability).2 }
  stepN 29 gA

/-- A fresh round whose pipe list is one pair that has just crossed the
bird (trailing edge 90 < bird.x = 100). -/
def g4test : Game :=
  { gStart with pipes := [{ x := 30, y := 0, width := 60, height := 100, passed := false },
                          { x := 30, y := 250, width := 60, height := 350, passed := false }] }

/-- A fresh round whose pipe list is a single crossed segment. -/
def g4single : Game :=
  { gStart with pipes := [{ x := 30, y := 0, width := 60, height := 100, passed := false }] }

/-- A dying bird well above the floor with 2.5 s of death animation
already accumulated. -/
def g3dying : Game :=
  { gStart with bird := { gStart.bird with
                          isDying := true, y := 100,
                          deathAnimationTime := 2.5 } }

/-- A playing state on a window of CSS size 400×600 with device pixel
ratio 2, so the canvas element is 800×1200 physical pixels
(renderer.js:56-61); the bird's bottom edge (610) is below the virtual
viewport floor (600) but far above the canvas pixel floor (1200). -/
def g1phys : Game :=
  { startGame (initGame 800 1200 0) with
    bird := { (initGame 800 1200 0).bird with y := 580 } }

/-- The ability record in its idle state (both timers zero). -/
def a6idle : Ability :=
  { active := false, duration := 3, cooldown := 15, cooldownTimer := 0, activeTimer := 0 }

/-- An ability record mid-cooldown. -/
def a6busy : Ability :=
  { active := false, duration := 3, cooldown := 15, cooldownTimer := 5, activeTimer := 0 }

/-- A playing state with the shield freshly active and the bird resting
past the floor line, for exercising floor death while invulnerable. -/
def g7w : Game :=
  { gStart with
    ability := { gStart.ability with active := true, activeTimer := 3, cooldownTimer := 15 },
    bird := { gStart.bird with y := 580 } }

theorem deathSequence_proj (g : Game) :
    (gameOver (startDeathAnimation g)).score = g.score ∧
    (gameOver (startDeathAnimation g)).difficultyLevel = g.difficultyLevel ∧
    (gameOver (startDeathAnimation g)).pipeSpeed = g.pipeSpeed ∧
    (gameOver (startDeathAnimation g)).pipeGap = g.pipeGap ∧
    (gameOver (startDeathAnimation g)).gravity = g.gravity ∧
    (gameOver (startDeathAnimation g)).pipeSpawnInterval = g.pipeSpawnInterval ∧
    (gameOver (startDeathAnimation g)).basePipeSpeed = g.basePipeSpeed ∧
    (gameOver (startDeathAnimation g)).basePipeGap = g.basePipeGap ∧
    (gameOver (startDeathAnimation g)).baseGravity = g.baseGravity ∧
    (gameOver (startDeathAnimation g)).pipes = g.pipes ∧
    (gameOver (startDeathAnimation g)).ability = g.ability ∧
    (gameOver (startDeathAnimation g)).bird.x = g.bird.x := by
  unfold gameOver startDeathAnimation
  split_ifs <;> simp

theorem updateBird_proj (g : Game) (dt : ℚ) (j : Bool) :
    (updateBird g dt j).score = g.score ∧
    (updateBird g dt j).difficultyLevel = g.difficultyLevel ∧
    (updateBird g dt j).pipeSpeed = g.pipeSpeed ∧
    (updateBird g dt j).pipeGap = g.pipeGap ∧
    (updateBird g dt j).gravity = g.gravity ∧
    (updateBird g dt j).pipeSpawnInterval = g.pipeSpawnInterval ∧
    (updateBird g dt j).basePipeSpeed = g.basePipeSpeed ∧
    (updateBird g dt j).basePipeGap = g.basePipeGap ∧
    (updateBird g dt j).baseGravity = g.baseGravity ∧
    (updateBird g dt j).pipes = g.pipes ∧
    (updateBird g dt j).ability = g.ability ∧
    (updateBird g dt j).bird.x = g.bird.x := by
  simp only [updateBird, applyGravity, applyJump, clampVelocity]
  split_ifs <;>
    first
      | exact ⟨rfl, rfl, rfl, rfl, rfl, rfl, rfl, rfl, rfl, rfl, rfl, rfl⟩
      | exact ⟨(deathSequence_proj _).1, (deathSequence_proj _).2.1,
          (deathSequence_proj _).2.2.1, (deathSequence_proj _).2.2.2.1,
          (deathSequence_proj _).2.2.2.2.1, (deathSequence_proj _).2.2.2.2.2.1,
          (deathSequence_proj _).2.2.2.2.2.2.1, (deathSequence_proj _).2.2.2.2.2.2.2.1,
          (deathSequence_proj _).2.2.2.2.2.2.2.2.1, (deathSequence_proj _).2.2.2.2.2.2.2.2.2.1,
          (deathSequence_proj _).2.2.2.2.2.2.2.2.2.2.1,
          (deathSequence_proj _).2.2.2.2.2.2.2.2.2.2.2⟩

theorem updatePipes_proj (g : Game) (dt r : ℚ) :
    (updatePipes g dt r).score = g.score ∧
    (updatePipes g dt r).difficultyLevel = g.difficultyLevel ∧
    (updatePipes g dt r).pipeSpeed = g.pipeSpeed ∧
    (updatePipes g dt r).pipeGap = g.pipeGap ∧
    (updatePipes g dt r).gravity = g.gravity ∧
    (updatePipes g dt r).pipeSpawnInterval = g.pipeSpawnInterval ∧
    (updatePipes g dt r).basePipeSpeed = g.basePipeSpeed ∧
    (updatePipes g dt r).basePipeGap = g.basePipeGap ∧
    (updatePipes g dt r).baseGravity = g.baseGravity ∧
    (updatePipes g dt r).bird = g.bird ∧
    (updatePipes g dt r).ability = g.ability ∧
    (updatePipes g dt r).state = g.state := by
  simp only [updatePipes]
  split_ifs <;> exact ⟨rfl, rfl, rfl, rfl, rfl, rfl, rfl, rfl, rfl, rfl, rfl, rfl⟩

theorem checkCollisions_proj (g : Game) :
    (checkCollisions g).score = g.score ∧
    (checkCollisions g).difficultyLevel = g.difficultyLevel ∧
    (checkCollisions g).pipeSpeed = g.pipeSpeed ∧
    (checkCollisions g).pipeGap = g.pipeGap ∧
    (checkCollisions g).gravity = g.gravity ∧
    (checkCollisions g).pipeSpawnInterval = g.pipeSpawnInterval ∧
    (checkCollisions g).basePipeSpeed = g.basePipeSpeed ∧
    (checkCollisions g).basePipeGap = g.basePipeGap ∧
    (checkCollisions g).baseGravity = g.baseGravity ∧
    (checkCollisions g).pipes = g.pipes ∧
    (checkCollisions g).ability = g.ability ∧
    (checkCollisions g).bird.x = g.bird.x := by
  simp only [checkCollisions]
  split_ifs <;>
    first
      | exact ⟨rfl, rfl, rfl, rfl, rfl, rfl, rfl, rfl, rfl, rfl, rfl, rfl⟩
      | exact ⟨(deathSequence_proj _).1, (deathSequence_proj _).2.1,
          (deathSequence_proj _).2.2.1, (deathSequence_proj _).2.2.2.1,
          (deathSequence_proj _).2.2.2.2.1, (deathSequence_proj _).2.2.2.2.2.1,
          (deathSequence_proj _).2.2.2.2.2.2.1, (deathSequence_proj _).2.2.2.2.2.2.2.1,
          (deathSequence_proj _).2.2.2.2.2.2.2.2.1, (deathSequence_proj _).2.2.2.2.2.2.2.2.2.1,
          (deathSequence_proj _).2.2.2.2.2.2.2.2.2.2.1,
          (deathSequence_proj _).2.2.2.2.2.2.2.2.2.2.2⟩

theorem tickAbility_active_of_lt (a : Ability) (dt : ℚ)
    (ha : a.active = true) (h : dt < a.activeTimer) :
    (tickAbility a dt).active = true := by
  unfold tickAbility
  by_cases hc : a.cooldownTimer > 0 <;> simp [hc, ha] <;> rw [if_neg (not_le.mpr h)]

/-- Claim C9: `Physics.applyGravity` changes only the velocity, by
exactly `gravityAccel*dt`, leaving x and y untouched; from velocity 0
with gravity 1000 and dt 0.1 the velocity becomes 100 with the position
unchanged, and a subsequent `applyJump(250)` overwrites it to −250. -/
theorem physics_velocity_only (b : Bird) (grav dt jf : ℚ) :
    applyGravity b grav dt = { b with velocity := b.velocity + grav * dt } ∧
    applyJump b jf = { b with velocity := -jf } ∧
    (applyGravity { b with velocity := 0 } 1000 0.1).velocity = 100 ∧
    (applyGravity { b with velocity := 0 } 1000 0.1).x = b.x ∧
    (applyGravity { b with velocity := 0 } 1000 0.1).y = b.y ∧
    (applyJump (applyGravity { b with velocity := 0 } 1000 0.1) 250).velocity = -250 := by
  refine ⟨rfl, rfl, ?_, rfl, rfl, rfl⟩
  show (0 : ℚ) + 1000 * 0.1 = 100
  norm_num

/-- Claim C2, counterexample: the loop computes
`Math.min((currentTime-lastTime)/1000, 0.1)` with no lower clamp, so the
raw delta −1000 ms yields dt = −1 s, which is below 0: the claimed
clamping into [0, 0.1] does not happen on the negative side. -/
theorem deltaTime_negative_not_clamped :
    computeDeltaTime 1000 0 = -1 ∧ computeDeltaTime 1000 0 < 0 := by
  with_unfolding_all decide

/-- Claim C2, amended: the frame delta is clamped from above to 0.1 s,
and it is nonnegative exactly when the raw elapsed time is nonnegative —
a negative raw delta is passed through negative, not raised to 0. -/
theorem deltaTime_clamp_upper_only (lastTime currentTime : ℚ) :
    computeDeltaTime lastTime currentTime ≤ 0.1 ∧
    (0 ≤ computeDeltaTime lastTime currentTime ↔ lastTime ≤ currentTime) := by
  constructor
  · exact min_le_right _ _
  · rw [computeDeltaTime, le_min_iff]
    constructor
    · rintro ⟨h1, -⟩
      nlinarith
    · intro h
      exact ⟨div_nonneg (by linarith) (by norm_num), by norm_num⟩

/-- Claim C6: `activateInvulnerability` fails and leaves the ability
record untouched exactly when `cooldownTimer > 0`; otherwise it succeeds
setting active, activeTimer = duration and cooldownTimer = cooldown, and
an immediately repeated call fails leaving that state unchanged. -/
theorem activateInvulnerability_cooldown_gate (a : Ability) :
    ((activateInvulnerability a).1 = false ↔ a.cooldownTimer > 0) ∧
    (a.cooldownTimer > 0 → (activateInvulnerability a).2 = a) ∧
    (a.cooldownTimer ≤ 0 →
      (activateInvulnerability a).2 =
        { a with active := true, activeTimer := a.duration,
                 cooldownTimer := a.cooldown }) ∧
    (a.cooldownTimer ≤ 0 → 0 < a.cooldown →
      activateInvulnerability (activateInvulnerability a).2 =
        (false, (activateInvulnerability a).2)) := by
  by_cases h : a.cooldownTimer > 0
  · exact ⟨by simp [activateInvulnerability, h],
      fun _ => by simp [activateInvulnerability, h],
      fun h' => absurd h (not_lt.mpr h'),
      fun h' _ => absurd h (not_lt.mpr h')⟩
  · have hsnd : (activateInvulnerability a).2 =
        { a with active := true, activeTimer := a.duration,
                 cooldownTimer := a.cooldown } := by
      simp [activateInvulnerability, h]
    refine ⟨by simp [activateInvulnerability, h], fun hc => absurd hc h,
      fun _ => hsnd, fun _ hcool => ?_⟩
    rw [hsnd]
    simp [activateInvulnerability, hcool]

theorem activateInvulnerability_cooldown_gate_witness :
    ((activateInvulnerability a6idle).1 = false ↔ a6idle.cooldownTimer > 0) ∧
    (activateInvulnerability a6busy).2 = a6busy ∧
    (activateInvulnerability a6idle).2 =
      { a6idle with active := true, activeTimer := a6idle.duration,
                    cooldownTimer := a6idle.cooldown } ∧
    activateInvulnerability (activateInvulnerability a6idle).2 =
      (false, (activateInvulnerability a6idle).2) :=
  ⟨(activateInvulnerability_cooldown_gate a6idle).1,
   (activateInvulnerability_cooldown_gate a6busy).2.1 (by with_unfolding_all decide),
   (activateInvulnerability_cooldown_gate a6idle).2.2.1 (by with_unfolding_all decide),
   (activateInvulnerability_cooldown_gate a6idle).2.2.2 (by with_unfolding_all decide) (by with_unfolding_all decide)⟩

/-- Claim C8: for any random sample in [0,1) (and a play height leaving
the randomization interval nonempty), the spawned top segment starts at
y = 0 with height gapY, the bottom segment starts at gapY + pipeGap and
extends exactly to the play height, the two heights plus the gap sum to
the play height, and gapY lies in [100, playHeight − pipeGap − 100]. -/
theorem spawnPipe_pair_invariant (W H gap pw r : ℚ) (hr0 : 0 ≤ r) (hr1 : r < 1)
    (hH : 0 ≤ H - gap - 200) :
    (spawnPipe W H gap pw r).1.y = 0 ∧
    (spawnPipe W H gap pw r).2.y = (spawnPipe W H gap pw r).1.height + gap ∧
    (spawnPipe W H gap pw r).2.y + (spawnPipe W H gap pw r).2.height = H ∧
    (spawnPipe W H gap pw r).1.height + gap + (spawnPipe W H gap pw r).2.height = H ∧
    100 ≤ (spawnPipe W H gap pw r).1.height ∧
    (spawnPipe W H gap pw r).1.height ≤ H - gap - 100 := by
  unfold spawnPipe
  dsimp only
  refine ⟨rfl, rfl, by ring, by ring, ?_, ?_⟩
  · nlinarith [mul_nonneg hr0 hH]
  · nlinarith [mul_le_of_le_one_left hH (le_of_lt hr1)]

theorem spawnPipe_pair_invariant_witness :
    (spawnPipe 400 600 150 60 (1/2)).1.y = 0 ∧
    (spawnPipe 400 600 150 60 (1/2)).2.y = (spawnPipe 400 600 150 60 (1/2)).1.height + 150 ∧
    (spawnPipe 400 600 150 60 (1/2)).2.y + (spawnPipe 400 600 150 60 (1/2)).2.height = 600 ∧
    (spawnPipe 400 600 150 60 (1/2)).1.height + 150 + (spawnPipe 400 600 150 60 (1/2)).2.height = 600 ∧
    100 ≤ (spawnPipe 400 600 150 60 (1/2)).1.height ∧
    (spawnPipe 400 600 150 60 (1/2)).1.height ≤ 600 - 150 - 100 :=
  spawnPipe_pair_invariant 400 600 150 60 (1/2) (by norm_num) (by norm_num) (by norm_num)

/-- Claim C1, code-bug evidence: on a 400×600 CSS window with device
pixel ratio 2 the canvas element is 800×1200 physical pixels, and the
core's spawn/bounds arithmetic uses those physical dimensions, not the
renderer's fixed 400×600 virtual viewport: a fresh pair spawns at
x = 800 (past the viewport's right boundary 400), the randomized top
segment can be 865 units tall (taller than the whole 600-unit
viewport), and a bird whose bottom edge (610) is below the viewport
floor survives the frame because the floor check compares against 1200. -/
theorem canvas_pixel_dimensions_in_core :
    rendererViewport.width = 400 ∧ rendererViewport.height = 600 ∧
    (spawnPipe 800 1200 150 60 (1/2)).1.x = 800 ∧
    rendererViewport.width < (spawnPipe 800 1200 150 60 (1/2)).1.x ∧
    rendererViewport.height < (spawnPipe 800 1200 150 60 (9/10)).1.height ∧
    rendererViewport.height < g1phys.bird.y + g1phys.bird.height ∧
    (updateBird g1phys (1/10) false).bird.isDying = false ∧
    (updateBird g1phys (1/10) false).state = GState.playing := by
  with_unfolding_all decide

/-- Claim C3, code-bug evidence: `deathAnimationTime` accumulates the
frame deltas in seconds (2.5 + 0.1 = 2.6 here), yet the terminal check
of the dying branch compares that seconds accumulator against the
literal 2000, so at 2.6 s (2600 ms) of accumulated death time — well
past the claimed 2000 ms — the terminal condition is still false; it
would hold if the same field carried milliseconds (2600). -/
theorem death_timeout_units_mismatch :
    (updateBird g3dying (1/10) false).bird.deathAnimationTime = 2.6 ∧
    (2 : ℚ) < 2.6 ∧ (2000 : ℚ) < 2.6 * 1000 ∧
    ¬ deathTerminalCond (updateBird g3dying (1/10) false).bird g3dying.canvasHeight ∧
    deathTerminalCond
      { (updateBird g3dying (1/10) false).bird with deathAnimationTime := 2600 }
      g3dying.canvasHeight := by
  with_unfolding_all decide

/-- Claim C7, counterexample: `g7pre` is reachable (built from a fresh
round by 0.1 s frames and one shield activation) and has the ability
active — yet the very next per-frame update kills the bird through an
obstacle collision, because the frame's ability tick expires the shield
before `checkCollisions` runs; the bird is nowhere near the floor, so
the death is the obstacle's. -/
theorem invulnerability_expiry_frame_collision :
    g7pre.state = GState.playing ∧
    g7pre.ability.active = true ∧
    g7pre.bird.y + g7pre.bird.height < g7pre.canvasHeight ∧
    (update g7pre (1/10) false 0).bird.isDying = true ∧
    (update g7pre (1/10) false 0).state = GState.gameover ∧
    (update g7pre (1/10) false 0).bird.y + (update g7pre (1/10) false 0).bird.height <
      (update g7pre (1/10) false 0).canvasHeight := by
  with_unfolding_all decide

theorem deathSequence_dying (g : Game) (hd : g.bird.isDying = false)
    (hs : g.state ≠ GState.gameover) :
    (gameOver (startDeathAnimation g)).bird.isDying = true ∧
    (gameOver (startDeathAnimation g)).state = GState.gameover := by
  unfold gameOver startDeathAnimation
  have h1 : ¬ g.bird.isDying = true := by simp [hd]
  rw [if_neg h1]
  rw [if_neg (by simpa using hs)]
  exact ⟨rfl, rfl⟩

theorem scoreAtIndex_keeps (g : Game) (i : Nat) :
    (scoreAtIndex g i).bird = g.bird ∧ (scoreAtIndex g i).ability = g.ability ∧
    (scoreAtIndex g i).state = g.state := by
  unfold scoreAtIndex
  cases hp : g.pipes[i]? with
  | none => exact ⟨rfl, rfl, rfl⟩
  | some pipe =>
    dsimp only
    split_ifs <;> exact ⟨rfl, rfl, rfl⟩

theorem updateScoreAux_keeps (k : Nat) : ∀ (i : Nat) (g : Game),
    (updateScoreAux k i g).bird = g.bird ∧ (updateScoreAux k i g).ability = g.ability ∧
    (updateScoreAux k i g).state = g.state := by
  induction k with
  | zero => exact fun i g => ⟨rfl, rfl, rfl⟩
  | succ k ih =>
    intro i g
    have h1 := scoreAtIndex_keeps g i
    have h2 := ih (i + 1) (scoreAtIndex g i)
    exact ⟨h2.1.trans h1.1, h2.2.1.trans h1.2.1, h2.2.2.trans h1.2.2⟩

theorem difficultyInv_of_eq {g g' : Game}
    (hs : g'.score = g.score) (hl : g'.difficultyLevel = g.difficultyLevel)
    (hps : g'.pipeSpeed = g.pipeSpeed) (hpg : g'.pipeGap = g.pipeGap)
    (hgr : g'.gravity = g.gravity) (hsi : g'.pipeSpawnInterval = g.pipeSpawnInterval)
    (hbs : g'.basePipeSpeed = g.basePipeSpeed) (hbg : g'.basePipeGap = g.basePipeGap)
    (hbgr : g'.baseGravity = g.baseGravity) (h : difficultyInv g) : difficultyInv g' := by
  unfold difficultyInv at h ⊢
  rw [hs, hl, hps, hpg, hgr, hsi, hbs, hbg, hbgr]
  exact h

theorem scoreAtIndex_inv (g : Game) (i : Nat) (h : difficultyInv g) :
    difficultyInv (scoreAtIndex g i) ∧
    g.difficultyLevel ≤ (scoreAtIndex g i).difficultyLevel := by
  unfold scoreAtIndex
  cases hp : g.pipes[i]? with
  | none => exact ⟨h, le_rfl⟩
  | some pipe =>
    dsimp only
    split_ifs with h1 h2 h3
    · exact ⟨⟨rfl, rfl, rfl, rfl, rfl⟩, le_of_lt h3⟩
    · have hle : (g.score + 1) / 25 ≤ g.difficultyLevel := not_lt.mp h3
      have hge : g.difficultyLevel ≤ (g.score + 1) / 25 := by
        rw [h.1]
        exact Nat.div_le_div_right (Nat.le_succ _)
      exact ⟨⟨le_antisymm hge hle, h.2.1, h.2.2.1, h.2.2.2.1, h.2.2.2.2⟩, le_rfl⟩
    · exact ⟨difficultyInv_of_eq rfl rfl rfl rfl rfl rfl rfl rfl rfl h, le_rfl⟩
    · exact ⟨h, le_rfl⟩

theorem updateScoreAux_inv (k : Nat) : ∀ (i : Nat) (g : Game), difficultyInv g →
    difficultyInv (updateScoreAux k i g) ∧
    g.difficultyLevel ≤ (updateScoreAux k i g).difficultyLevel := by
  induction k with
  | zero => exact fun i g h => ⟨h, le_rfl⟩
  | succ k ih =>
    intro i g h
    obtain ⟨h1, m1⟩ := scoreAtIndex_inv g i h
    obtain ⟨h2, m2⟩ := ih (i + 1) (scoreAtIndex g i) h1
    exact ⟨h2, le_trans m1 m2⟩

/-- Claim C5: `difficultyInv` (level = floor(score/25) together with the
four tunable formulas) is preserved by every per-frame update, and the
level never decreases within a round. -/
theorem difficulty_level_formula_invariant (g : Game) (dt r : ℚ) (j : Bool)
    (hinv : difficultyInv g) :
    difficultyInv (update g dt j r) ∧
    g.difficultyLevel ≤ (update g dt j r).difficultyLevel := by
  unfold update
  split_ifs with hp
  · have hinv1 : difficultyInv (updateAbilities g dt) :=
      difficultyInv_of_eq rfl rfl rfl rfl rfl rfl rfl rfl rfl hinv
    obtain ⟨e1, e2, e3, e4, e5, e6, e7, e8, e9, -, -, -⟩ :=
      updateBird_proj (updateAbilities g dt) dt j
    have hinv2 := difficultyInv_of_eq e1 e2 e3 e4 e5 e6 e7 e8 e9 hinv1
    obtain ⟨f1, f2, f3, f4, f5, f6, f7, f8, f9, -, -, -⟩ :=
      updatePipes_proj (updateBird (updateAbilities g dt) dt j) dt r
    have hinv3 := difficultyInv_of_eq f1 f2 f3 f4 f5 f6 f7 f8 f9 hinv2
    obtain ⟨c1, c2, c3, c4, c5, c6, c7, c8, c9, -, -, -⟩ :=
      checkCollisions_proj (updatePipes (updateBird (updateAbilities g dt) dt j) dt r)
    have hinv4 := difficultyInv_of_eq c1 c2 c3 c4 c5 c6 c7 c8 c9 hinv3
    have hfin := updateScoreAux_inv
      (checkCollisions (updatePipes (updateBird (updateAbilities g dt) dt j) dt r)).pipes.length
      0 _ hinv4
    refine ⟨hfin.1, ?_⟩
    have hlvl : (checkCollisions (updatePipes (updateBird (updateAbilities g dt) dt j)
        dt r)).difficultyLevel = g.difficultyLevel := by
      rw [c2, f2, e2]
      exact rfl
    calc g.difficultyLevel
        = (checkCollisions (updatePipes (updateBird (updateAbilities g dt) dt j)
            dt r)).difficultyLevel := hlvl.symm
      _ ≤ _ := hfin.2
  · exact ⟨hinv, le_rfl⟩

theorem difficulty_level_formula_invariant_witness :
    difficultyInv (update gStart (1/10) false (1/2)) ∧
    gStart.difficultyLevel ≤ (update gStart (1/10) false (1/2)).difficultyLevel :=
  difficulty_level_formula_invariant gStart (1/10) (1/2) false
    (by unfold difficultyInv; with_unfolding_all decide)

/-- Claim C10: no per-frame operation changes the bird's horizontal
position; it is 100 at construction and after every `startGame` reset. -/
theorem bird_x_invariant (g : Game) (dt r : ℚ) (j : Bool) (W H : ℚ) (hsc : Nat) :
    (update g dt j r).bird.x = g.bird.x ∧
    (initGame W H hsc).bird.x = 100 ∧
    (startGame g).bird.x = 100 := by
  refine ⟨?_, rfl, rfl⟩
  unfold update
  split_ifs with hp
  · have e1 : (updateBird (updateAbilities g dt) dt j).bird.x = g.bird.x :=
      (updateBird_proj (updateAbilities g dt) dt j).2.2.2.2.2.2.2.2.2.2.2
    have e2 : (updatePipes (updateBird (updateAbilities g dt) dt j) dt r).bird =
        (updateBird (updateAbilities g dt) dt j).bird :=
      (updatePipes_proj (updateBird (updateAbilities g dt) dt j) dt r).2.2.2.2.2.2.2.2.2.1
    have e3 : (checkCollisions (updatePipes (updateBird (updateAbilities g dt) dt j)
        dt r)).bird.x =
        (updatePipes (updateBird (updateAbilities g dt) dt j) dt r).bird.x :=
      (checkCollisions_proj _).2.2.2.2.2.2.2.2.2.2.2
    have e4 : (updateScore (checkCollisions (updatePipes
        (updateBird (updateAbilities g dt) dt j) dt r))).bird =
        (checkCollisions (updatePipes (updateBird (updateAbilities g dt) dt j)
          dt r)).bird :=
      (updateScoreAux_keeps
        (checkCollisions (updatePipes (updateBird (updateAbilities g dt) dt j) dt r)).pipes.length
        0 (checkCollisions (updatePipes (updateBird (updateAbilities g dt) dt j) dt r))).1
    calc (updateScore (checkCollisions (updatePipes
            (updateBird (updateAbilities g dt) dt j) dt r))).bird.x
        = (checkCollisions (updatePipes (updateBird (updateAbilities g dt) dt j)
            dt r)).bird.x := by rw [e4]
      _ = (updatePipes (updateBird (updateAbilities g dt) dt j) dt r).bird.x := e3
      _ = (updateBird (updateAbilities g dt) dt j).bird.x := by rw [e2]
      _ = g.bird.x := e1
  · rfl

/-- Claim C7, amended: obstacle collisions are suppressed whenever the
ability is still active when the collision step runs — in particular a
whole frame's collision check is skipped when the ability survives the
frame's own tick (dt < activeTimer) — while a floor contact still
triggers the death animation and game over even with the shield active. -/
theorem invulnerability_skips_collisions_amended :
    (∀ g : Game, g.ability.active = true → checkCollisions g = g) ∧
    (∀ (g : Game) (dt r : ℚ) (j : Bool),
      g.state = GState.playing → g.ability.active = true →
      dt < g.ability.activeTimer →
      update g dt j r =
        updateScore (updatePipes (updateBird (updateAbilities g dt) dt j) dt r)) ∧
    (∀ (g : Game) (dt : ℚ) (j : Bool),
      g.ability.active = true → g.bird.isDying = false → 0 ≤ g.bird.y →
      g.bird.y + g.bird.height > g.canvasHeight → g.state = GState.playing →
      (updateBird g dt j).bird.isDying = true ∧
      (updateBird g dt j).state = GState.gameover) := by
  refine ⟨?_, ?_, ?_⟩
  · intro g hact
    unfold checkCollisions
    rw [if_pos hact]
  · intro g dt r j hplay hact htimer
    unfold update
    rw [if_pos hplay]
    have hab : (updatePipes (updateBird (updateAbilities g dt) dt j)
        dt r).ability.active = true := by
      rw [(updatePipes_proj (updateBird (updateAbilities g dt) dt j) dt r).2.2.2.2.2.2.2.2.2.2.1]
      rw [(updateBird_proj (updateAbilities g dt) dt j).2.2.2.2.2.2.2.2.2.2.1]
      exact tickAbility_active_of_lt g.ability dt hact htimer
    have hcc : checkCollisions (updatePipes (updateBird (updateAbilities g dt) dt j)
        dt r) = updatePipes (updateBird (updateAbilities g dt) dt j) dt r := by
      unfold checkCollisions
      rw [if_pos hab]
    rw [hcc]
  · intro g dt j hact hdying hy0 hfloor hplay
    have hnd : ¬ g.bird.isDying = true := by simp [hdying]
    have hnot : ¬ (g.bird.y < 0) := not_lt.mpr hy0
    have hne : g.state ≠ GState.gameover := by
      rw [hplay]
      exact fun h => GState.noConfusion h
    unfold updateBird
    rw [if_neg hnd]
    cases j <;>
      simp only [applyGravity, applyJump, clampVelocity, Bool.false_eq_true, if_false,
        if_true, ite_false, ite_true, hnot] <;>
      rw [if_pos hfloor] <;>
      exact deathSequence_dying _ hdying hne

theorem invulnerability_skips_collisions_amended_witness :
    checkCollisions g7w = g7w ∧
    update g7w (1/10) false 0 =
      updateScore (updatePipes (updateBird (updateAbilities g7w (1/10)) (1/10) false)
        (1/10) 0) ∧
    (updateBird g7w (1/10) false).bird.isDying = true ∧
    (updateBird g7w (1/10) false).state = GState.gameover :=
  ⟨invulnerability_skips_collisions_amended.1 g7w (by with_unfolding_all decide),
   invulnerability_skips_collisions_amended.2.1 g7w (1/10) 0 false
     (by with_unfolding_all decide) (by with_unfolding_all decide)
     (by with_unfolding_all decide),
   (invulnerability_skips_collisions_amended.2.2 g7w (1/10) false
     (by with_unfolding_all decide) (by with_unfolding_all decide)
     (by with_unfolding_all decide) (by with_unfolding_all decide)
     (by with_unfolding_all decide)).1,
   (invulnerability_skips_collisions_amended.2.2 g7w (1/10) false
     (by with_unfolding_all decide) (by with_unfolding_all decide)
     (by with_unfolding_all decide) (by with_unfolding_all decide)
     (by with_unfolding_all decide)).2⟩

theorem scoreAtIndex_passed (h : Game) (i : Nat)
    (hall : ∀ p ∈ h.pipes, p.passed = true) : scoreAtIndex h i = h := by
  unfold scoreAtIndex
  cases hp : h.pipes[i]? with
  | none => rfl
  | some pipe =>
    dsimp only
    rw [if_neg]
    rintro ⟨c1, -⟩
    have hm := hall pipe (List.getElem?_mem hp)
    rw [hm] at c1
    exact Bool.true_eq_false.mp c1

theorem updateScoreAux_passed (k : Nat) : ∀ (i : Nat) (h : Game),
    (∀ p ∈ h.pipes, p.passed = true) → updateScoreAux k i h = h := by
  induction k with
  | zero => exact fun i h _ => rfl
  | succ k ih =>
    intro i h hall
    show updateScoreAux k (i + 1) (scoreAtIndex h i) = h
    rw [scoreAtIndex_passed h i hall]
    exact ih (i + 1) h hall

theorem updateScore_passed (h : Game) (hall : ∀ p ∈ h.pipes, p.passed = true) :
    updateScore h = h :=
  updateScoreAux_passed h.pipes.length 0 h hall

/-- Claim C4: a pipe pair — two segments at the same x — whose trailing
edge (x + width) has strictly crossed the bird's x has both segments
marked passed and scores exactly one point (detected by counting passed
pipes within 10 units of the segment just marked); a repeated score pass
leaves the score unchanged, and a single crossed segment alone scores
nothing. -/
theorem pair_scores_exactly_once :
    (∀ (g : Game) (x w y₁ h₁ y₂ h₂ : ℚ),
      g.pipes = [{ x := x, y := y₁, width := w, height := h₁, passed := false },
                 { x := x, y := y₂, width := w, height := h₂, passed := false }] →
      x + w < g.bird.x →
      (updateScore g).score = g.score + 1 ∧
      (∀ p ∈ (updateScore g).pipes, p.passed = true) ∧
      (updateScore (updateScore g)).score = (updateScore g).score) ∧
    (∀ (g : Game) (x w y h : ℚ),
      g.pipes = [{ x := x, y := y, width := w, height := h, passed := false }] →
      x + w < g.bird.x →
      (updateScore g).score = g.score) := by
  constructor
  · intro g x w y₁ h₁ y₂ h₂ hpipes hcross
    have e1 : scoreAtIndex g 0 =
        { g with pipes := [{ x := x, y := y₁, width := w, height := h₁, passed := true },
                           { x := x, y := y₂, width := w, height := h₂, passed := false }] } := by
      unfold scoreAtIndex
      rw [hpipes]
      simp only [List.getElem?_cons_zero, List.set_cons_zero]
      rw [if_pos ⟨trivial, hcross⟩]
      rw [if_neg (by norm_num [List.filter])]
    have e2 : (scoreAtIndex
        { g with pipes := [{ x := x, y := y₁, width := w, height := h₁, passed := true },
                           { x := x, y := y₂, width := w, height := h₂, passed := false }] } 1).score
          = g.score + 1 ∧
        (scoreAtIndex
        { g with pipes := [{ x := x, y := y₁, width := w, height := h₁, passed := true },
                           { x := x, y := y₂, width := w, height := h₂, passed := false }] } 1).pipes
          = [{ x := x, y := y₁, width := w, height := h₁, passed := true },
             { x := x, y := y₂, width := w, height := h₂, passed := true }] := by
      unfold scoreAtIndex
      simp only [List.getElem?_cons_succ, List.getElem?_cons_zero, List.set_cons_succ,
        List.set_cons_zero]
      rw [if_pos ⟨trivial, hcross⟩]
      rw [if_pos (by norm_num [List.filter])]
      split_ifs <;> exact ⟨rfl, rfl⟩
    have hu : updateScore g = scoreAtIndex (scoreAtIndex g 0) 1 := by
      unfold updateScore
      rw [hpipes]
      rfl
    have hpassed : ∀ p ∈ (updateScore g).pipes, p.passed = true := by
      rw [hu, e1]
      rw [e2.2]
      simp
    refine ⟨by rw [hu, e1]; exact e2.1, hpassed, ?_⟩
    rw [updateScore_passed (updateScore g) hpassed]
  · intro g x w y h hpipes hcross
    have e1 : scoreAtIndex g 0 =
        { g with pipes := [{ x := x, y := y, width := w, height := h, passed := true }] } := by
      unfold scoreAtIndex
      rw [hpipes]
      simp only [List.getElem?_cons_zero, List.set_cons_zero]
      rw [if_pos ⟨trivial, hcross⟩]
      rw [if_neg (by norm_num [List.filter])]
    have hu : updateScore g = scoreAtIndex g 0 := by
      unfold updateScore
      rw [hpipes]
      rfl
    rw [hu, e1]

theorem pair_scores_exactly_once_witness :
    (updateScore g4test).score = g4test.score + 1 ∧
    (∀ p ∈ (updateScore g4test).pipes, p.passed = true) ∧
    (updateScore (updateScore g4test)).score = (updateScore g4test).score ∧
    (updateScore g4single).score = g4single.score :=
  ⟨(pair_scores_exactly_once.1 g4test 30 60 0 100 250 350 rfl
      (by with_unfolding_all decide)).1,
   (pair_scores_exactly_once.1 g4test 30 60 0 100 250 350 rfl
      (by with_unfolding_all decide)).2.1,
   (pair_scores_exactly_once.1 g4test 30 60 0 100 250 350 rfl
      (by with_unfolding_all decide)).2.2,
   pair_scores_exactly_once.2 g4single 30 60 0 100 rfl
      (by with_unfolding_all decide)⟩

end Pajarito
